import Mathlib

/-!
Shallow embedding of `src/minesweeper/gui.py` (pygame GUI widgets:
Label, SelectionGroup, Input) for checking the specification's claims.

Modelling conventions, chosen once and used throughout:

* A pygame `Surface`/rendered image is modelled by `Image`: its pixel size
  plus a `content` tag abstracting the pixel data (for a text render the
  tag is the rendered string, so re-rendering different text is
  observable; colors do not matter to any claim and are carried opaquely).
* A pygame `Font` is modelled by its metric functions: `size s` is the
  pixel size `font.size(s)` of a rendered string (pygame guarantees
  `font.render(s, ...)` has exactly this size) and `get_height` is
  `font.get_height()`.
* `pygame.Rect` is modelled by `Rect` with `Int` coordinates.
  `Rect.collidepoint` follows pygame: left/top edges inclusive,
  right/bottom exclusive.
* Ambient mouse position (`pygame.mouse.get_pos()`) is passed as an
  explicit `mouse_pos` argument to the handlers, and the ambient
  `pygame.key.name` as an explicit `key_name : Nat → String` argument.
* Callbacks: `Input.on_enter_callback` is an `Option (String → Bool)`
  (Python truthiness of its return value becomes `Bool`).
  `SelectionGroup`'s change callback is modelled by a `has_callback` flag
  plus an invocation log returned by `on_mouse_down`: each entry records
  the argument passed and the value of `_selected` at the moment of the
  call, so "called before the selection is updated" is observable.
* Python exception behaviour: a constructor that can `raise` returns
  `Except String _` carrying the exception message.
-/

/-- `pygame.Color`-compatible values; opaque to every claim. -/
abbrev Color := Nat

/-- A pygame surface/image: pixel size plus an opaque content tag. -/
structure Image where
  width : Nat
  height : Nat
  content : String
  deriving Repr, DecidableEq

/-- `surface.get_size()`. -/
def Image.get_size (img : Image) : Nat × Nat := (img.width, img.height)

/-- A pygame font, modelled by its metrics: `size s` = `font.size(s)`
(the pixel size of a render of `s`), `get_height` = `font.get_height()`. -/
structure Font where
  size : String → Nat × Nat
  get_height : Nat

/-- `font.render(text, False, color)`: a surface of size `font.size(text)`
whose pixel content is abstracted by the rendered string. -/
def Font.render (font : Font) (text : String) (_color : Color) : Image :=
  ⟨(font.size text).1, (font.size text).2, text⟩

/-- A pygame rectangle.  Widths/heights in this code are always
non-negative but we keep `Int` to mirror pygame's integer rects. -/
structure Rect where
  left : Int
  top : Int
  width : Int
  height : Int
  deriving Repr, DecidableEq

/-- `rect.collidepoint(x, y)`: pygame treats the left/top edges as inside
and the right/bottom edges as outside. -/
def Rect.collidepoint (r : Rect) (x y : Int) : Bool :=
  r.left ≤ x && x < r.left + r.width && r.top ≤ y && y < r.top + r.height

/-- `LEFT_CLICK = 1` (gui.py line 4). -/
def LEFT_CLICK : Nat := 1

/-- `create_frame_image(width, height, color, line_width=1)`: a transparent
surface of exactly the given size with a rectangular outline drawn on it.
The four `pygame.draw.line` calls only paint pixels, so the model keeps the
size and tags the content as a frame of the given color. -/
def create_frame_image (width height : Nat) (color : Color) : Image :=
  ⟨width, height, "frame:" ++ toString color⟩

/-! ## Label -/

/-- State of a `Label` (gui.py lines 18-44): font, color, the cached
rendered surface and the bounding rect placed at the construction
position. -/
structure Label where
  font : Font
  font_color : Color
  surface : Image
  rect : Rect

/-- `Label.__init__(font, font_color, text, position)`. -/
def Label.mk' (font : Font) (font_color : Color) (text : String)
    (position : Int × Int) : Label :=
  let surface := font.render text font_color
  { font := font
    font_color := font_color
    surface := surface
    rect := ⟨position.1, position.2, surface.width, surface.height⟩ }

/-- `Label.set_text(text)`: re-renders the cached surface.  Note the
source does not touch `self.rect` here. -/
def Label.set_text (self : Label) (text : String) : Label :=
  { self with surface := self.font.render text self.font_color }

/-- `Label.render()`. -/
def Label.render (self : Label) : Image := self.surface

/-! A concrete monospace-style font used for concrete evaluations:
every string renders 1 pixel high and one pixel per character wide. -/

/-- A concrete font: each character is one pixel wide, lines one pixel
high. -/
def monoFont : Font :=
  { size := fun s => (s.length, 1)
    get_height := 1 }

/-- A concrete label used as a counterexample input: text "ab" rendered
with `monoFont` at the origin; its rect has size (2, 1). -/
def demoLabel : Label := Label.mk' monoFont 0 "ab" (0, 0)

example : demoLabel.rect = ⟨0, 0, 2, 1⟩ := by rfl
example : (demoLabel.set_text "abcde").surface.width = 5 := by rfl
example : (demoLabel.set_text "abcde").rect.width = 2 := by rfl

/-! ## Input -/

/-- A single blit performed by `Input._prepare_render` onto the fresh
surface, in execution order: the optional frame around the value
sub-rectangle, then the rendered text line. -/
inductive Blit where
  | frame (img : Image) (rect : Rect)
  | text (img : Image) (rect : Rect)
  deriving Repr, DecidableEq

/-- The data computed by `Input._prepare_render` (gui.py lines 277-313):
the fresh surface's size, the centred text rect, the value
sub-rectangle, and the blits composited onto the surface in order. -/
structure PreparedRender where
  surface_w : Nat
  surface_h : Nat
  text_rect : Rect
  value_rect : Rect
  blits : List Blit
  deriving Repr, DecidableEq

/-- `pygame.K_BACKSPACE`. -/
def K_BACKSPACE : Nat := 8
/-- `pygame.K_RETURN`. -/
def K_RETURN : Nat := 13

/-- State of an `Input` (gui.py lines 248-275).  Field names follow the
source: `value` is the committed value, `current_value` the pending edit
buffer, `in_input` the edit-mode flag.  The cached `self.surface`,
`self.text_rect` and `self.value_rect` are bundled in `prepared`;
`rect` is the screen bounding rect. -/
structure Input where
  font : Font
  font_color : Color
  width : Option Nat
  active_input : Bool
  in_input : Bool
  title : String
  value : String
  current_value : String
  delimiter : String
  frame_color : Color
  max_value_length : Option Nat
  allowed_symbols : Option (List String)
  on_enter_callback : Option (String → Bool)
  prepared : PreparedRender
  rect : Rect

/-- `Input._prepare_render` (gui.py lines 277-313), as a pure function of
the widget fields it reads.  Mirrors the source line by line:
append the `'_'` cursor when editing, render the full line, centre it in
a surface of the configured (or natural) width, compute the value
sub-rectangle padded by the width of one `'|'` glyph, then blit the
frame (only when `active_input` is set) followed by the text. -/
def Input.prepare_render (self : Input) : PreparedRender :=
  let value := self.current_value ++ if self.in_input then "_" else ""
  let text := self.font.render (self.title ++ self.delimiter ++ value)
      self.font_color
  let width := match self.width with
    | none => text.width
    | some w => w
  let height := text.height
  -- text.get_rect(center=surface.get_rect().center): pygame sets
  -- topleft = center - size // 2 with integer division.
  let text_rect : Rect :=
    ⟨(width / 2 : Nat) - (text.width / 2 : Nat),
     (height / 2 : Nat) - (text.height / 2 : Nat),
     text.width, text.height⟩
  let title_width := (self.font.size (self.title ++ self.delimiter)).1
  let value_width := (self.font.size value).1
  let value_height := (self.font.size value).2
  let margin := (self.font.size "|").1
  let value_rect : Rect :=
    ⟨text_rect.left + title_width - margin, text_rect.top,
     value_width + 2 * margin, value_height⟩
  let frame := create_frame_image (value_width + 2 * margin) value_height
      self.frame_color
  { surface_w := width
    surface_h := height
    text_rect := text_rect
    value_rect := value_rect
    blits :=
      (if self.active_input then [Blit.frame frame value_rect] else [])
        ++ [Blit.text text text_rect] }

/-- Re-run `_prepare_render` and store its results back into the widget,
including `self.rect.size = surface.get_size()` (the position of `rect`
is untouched). -/
def Input.refresh (self : Input) : Input :=
  let p := self.prepare_render
  { self with
    prepared := p
    rect := { self.rect with width := p.surface_w, height := p.surface_h } }

/-- `Input.__init__` (gui.py lines 248-275): the value argument is stored
both as the committed `value` and the pending `current_value` (the
source applies `str`; callers here pass strings already), editing starts
off, `_prepare_render` runs once and the bounding rect is placed at
`position` with the surface's size. -/
def Input.mk' (font : Font) (font_color : Color) (title value : String)
    (delimiter : String) (frame_color : Option Color) (active_input : Bool)
    (width : Option Nat) (max_value_length : Option Nat)
    (allowed_symbols : Option (List String))
    (on_enter_callback : Option (String → Bool))
    (position : Int × Int) : Input :=
  let st : Input :=
    { font := font
      font_color := font_color
      width := width
      active_input := active_input
      in_input := false
      title := title
      value := value
      current_value := value
      delimiter := delimiter
      frame_color := match frame_color with
        | none => font_color
        | some c => c
      max_value_length := max_value_length
      allowed_symbols := allowed_symbols
      on_enter_callback := on_enter_callback
      prepared := ⟨0, 0, ⟨0, 0, 0, 0⟩, ⟨0, 0, 0, 0⟩, []⟩  -- self.surface = None
      rect := ⟨0, 0, 0, 0⟩ }
  let p := st.prepare_render
  { st with
    prepared := p
    rect := ⟨position.1, position.2, p.surface_w, p.surface_h⟩ }

/-- `Input.render()`. -/
def Input.render (self : Input) : PreparedRender := self.prepared

/-- `Input.set_value(value)` (gui.py lines 318-324).  The early return
compares the new value against `self.current_value` (the pending
buffer); on change both `current_value` and `value` are set and
`_prepare_render` runs. -/
def Input.set_value (self : Input) (value : String) : Input :=
  if value = self.current_value then self
  else
    Input.refresh { self with current_value := value, value := value }

/-- The field mutations of `Input.set_value(value)` (gui.py lines
318-324) in source order, stopping just before the `_prepare_render()`
call; the `Bool` records whether that call is reached.  `Input.set_value`
is this followed by `refresh` when the flag is set; if `_prepare_render`
raised, the Python object would be left exactly in the first component
(both value fields already assigned, cached surface stale). -/
def Input.set_value_mut (self : Input) (value : String) : Input × Bool :=
  if value = self.current_value then (self, false)
  else ({ self with current_value := value, value := value }, true)

/-- `Input.on_mouse_click(button)` (gui.py lines 326-341), with the
ambient `pygame.mouse.get_pos()` passed explicitly.  A primary click on
an active input enters edit mode when the pointer is in the cached value
sub-rectangle, otherwise leaves edit mode and reverts the pending buffer
to the committed value; either way `_prepare_render` runs. -/
def Input.on_mouse_click (self : Input) (button : Nat)
    (mouse_pos : Int × Int) : Input :=
  if !self.active_input || button ≠ LEFT_CLICK then self
  else
    let x := mouse_pos.1 - self.rect.left
    let y := mouse_pos.2 - self.rect.top
    if self.prepared.value_rect.collidepoint x y then
      Input.refresh { self with in_input := true }
    else
      Input.refresh { self with in_input := false,
                                current_value := self.value }

/-- The field mutations of `Input.on_key_press(key)` (gui.py lines
343-370) in source order, stopping just before the `_prepare_render()`
call of the taken branch; the `Bool` records whether that branch calls
`_prepare_render` at all.  The full handler `Input.on_key_press` is this
followed by `refresh` when the flag is set; if `_prepare_render` raised,
the Python object would be left exactly in the first component (fields
already assigned, cached surface stale). -/
def Input.on_key_press_mut (self : Input) (key_name : Nat → String)
    (key : Nat) : Input × Bool :=
  if !self.in_input then (self, false)
  else if key = K_BACKSPACE then
    if self.current_value ≠ "" then
      ({ self with current_value := self.current_value.dropRight 1 }, true)
    else (self, false)
  else if key = K_RETURN then
    let self := { self with in_input := false }
    match self.on_enter_callback with
    | some cb =>
      if cb self.current_value then
        ({ self with value := self.current_value }, true)
      else
        ({ self with current_value := self.value }, true)
    | none => ({ self with value := self.current_value }, true)
  else
    -- Python: `len(self.current_value) == self.max_value_length` is
    -- False when max_value_length is None.
    if (match self.max_value_length with
        | some m => self.current_value.length == m
        | none => false) then (self, false)
    else
      let kn := key_name key
      if (match self.allowed_symbols with
          | none => true
          | some syms => syms.contains kn) then
        ({ self with current_value := self.current_value ++ kn }, true)
      else (self, false)

/-- `Input.on_key_press(key)` (gui.py lines 343-370): the mutations, then
`_prepare_render` on the branches that call it. -/
def Input.on_key_press (self : Input) (key_name : Nat → String)
    (key : Nat) : Input :=
  let r := self.on_key_press_mut key_name key
  if r.2 then r.1.refresh else r.1

/-! ## SelectionGroup -/

/-- State of a `SelectionGroup` (gui.py lines 117-208).  Layout
arithmetic in the source is Python float arithmetic on halves; it is
carried exactly in `ℚ` and truncated to `Int` exactly where
`pygame.Rect` truncates its arguments (all quantities are
non-negative, so truncation is `Rat.floor`).  The composited surface is
modelled by its size plus `markers`: `markers[i]` is `true` when row
`i` currently shows the selected-marker image (the title and option
text blits never change and are not tracked).  The per-row
`option_rects` are local variables in the source, used only to position
those text blits, and are not stored. -/
structure SelectionGroup where
  unselected_image : Image
  selected_image : Image
  options : List String
  n_options : Nat
  title_image : Image
  button_rects : List Rect
  item_rects : List Rect
  selected : Nat
  has_callback : Bool
  surface_w : Nat
  surface_h : Nat
  markers : List Bool
  rect : Rect

/-- The per-row layout loop of `SelectionGroup.__init__` (gui.py lines
155-166): starting at vertical offset `y`, emit for each item width a
`button_rect` (`unselected_image.get_rect(y=y)`) and an `item_rect`
(`pygame.Rect(0, y, item_width, item_height)`), advancing `y` by
`1.5 * item_height`.  The source computes `y` and the item widths in
Python floats; every value is a non-negative integer multiple of 1/2
(exactly representable in binary floating point), so this model carries
them doubled (`y2 = 2*y`, `widths2` = doubled item widths) and halves
with flooring Nat division exactly where `pygame.Rect` truncates its
arguments.  Returns (button_rects, item_rects). -/
def SelectionGroup.layoutRows (unselected_image : Image)
    (item_height : Nat) (widths2 : List Nat) (y2 : Nat) :
    List Rect × List Rect :=
  match widths2 with
  | [] => ([], [])
  | w2 :: rest =>
    let button_rect : Rect :=
      ⟨0, (y2 / 2 : Nat), unselected_image.width, unselected_image.height⟩
    let item_rect : Rect :=
      ⟨0, (y2 / 2 : Nat), (w2 / 2 : Nat), item_height⟩
    let tail := SelectionGroup.layoutRows unselected_image item_height rest
        (y2 + 3 * item_height)
    (button_rect :: tail.1, item_rect :: tail.2)

/-- `SelectionGroup.__init__` (gui.py lines 117-174).  Raises (returns
`Except.error`) with the equal-size message when the marker images
differ in size; with an empty options list, `max(item_widths)` raises
`ValueError: max() arg is an empty sequence`.  Otherwise lays out the
title and rows, starts with `_selected = 0`, and blits the selected
marker on row 0 and the unselected marker on every other row.
The float quantities of the source (`1.5 * button_width + w`,
`0.5/1.5 * item_height` offsets) are all non-negative multiples of 1/2
and are carried doubled (suffix `2`), halved with flooring division at
the points where the source truncates to integers (`pygame.Surface`
size, `pygame.Rect` fields). -/
def SelectionGroup.mk' (font : Font) (font_color : Color)
    (unselected_image selected_image : Image) (title : String)
    (options : List String) (has_callback : Bool) (position : Int × Int) :
    Except String SelectionGroup :=
  if unselected_image.get_size ≠ selected_image.get_size then
    Except.error
      "Images of selected and unselected buttons must have equal size"
  else
    let title_image := font.render title font_color
    let option_images := options.map (fun o => font.render o font_color)
    -- item_height = max(unselected_image.get_height(), font.get_height())
    let item_height : Nat := max unselected_image.height font.get_height
    let button_width : Nat := unselected_image.width
    -- item_widths = [1.5 * button_width + option_image.get_width() ...],
    -- doubled: 2 * (1.5 * bw + w) = 3 * bw + 2 * w
    let item_widths2 : List Nat :=
      option_images.map (fun oi => 3 * button_width + 2 * oi.width)
    match item_widths2.max? with
    | none => Except.error "max() arg is an empty sequence"
    | some mw2 =>
      -- width = max(max(item_widths), title_image.get_width())
      let width2 : Nat := max mw2 (2 * title_image.width)
      -- height = title_h + 0.5 * item_height + 1.5 * item_height * n
      let height2 : Nat := 2 * title_image.height + item_height
          + 3 * item_height * options.length
      let surface_w : Nat := width2 / 2
      let surface_h : Nat := height2 / 2
      -- title_rect = title_image.get_rect(centerx=surface_rect.centerx);
      -- only its bottom (the title height) feeds the row layout below,
      -- the title text blit itself is not tracked
      let _title_rect : Rect :=
        ⟨((surface_w / 2 : Nat) : Int) - ((title_image.width / 2 : Nat) : Int),
         0, title_image.width, title_image.height⟩
      -- y = title_rect.bottom + 0.5 * item_height, doubled
      let y2 : Nat := 2 * title_image.height + item_height
      let rects := SelectionGroup.layoutRows unselected_image item_height
          item_widths2 y2
      Except.ok
        { unselected_image := unselected_image
          selected_image := selected_image
          options := options
          n_options := options.length
          title_image := title_image
          button_rects := rects.1
          item_rects := rects.2
          selected := 0
          has_callback := has_callback
          surface_w := surface_w
          surface_h := surface_h
          markers := true :: List.replicate (options.length - 1) false
          rect := ⟨position.1, position.2, surface_w, surface_h⟩ }

/-- The scan of `SelectionGroup.on_mouse_down`'s for-loop over
`zip(button_rects, item_rects)`: index of the first pair whose
`item_rect` contains the local point, if any (the loop `break`s at the
first hit). -/
def firstHit (pairs : List (Rect × Rect)) (x y : Int) : Option Nat :=
  match pairs with
  | [] => none
  | p :: rest =>
    if p.2.collidepoint x y then some 0
    else (firstHit rest x y).map (fun i => i + 1)

/-- `SelectionGroup.on_mouse_down(button)` (gui.py lines 181-202), with
the ambient mouse position passed explicitly.  Returns the new state
together with the change-callback invocation log: each entry is the
argument `options[i]` passed to the callback and the value of
`_selected` at the moment of the call (the source invokes the callback
before the `self._selected = i` assignment).  After the scan, when the
selection changed, the previous row's marker is re-blitted unselected
and the new row's selected. -/
def SelectionGroup.on_mouse_down (self : SelectionGroup) (button : Nat)
    (mouse_pos : Int × Int) : SelectionGroup × List (String × Nat) :=
  if button ≠ LEFT_CLICK then (self, [])
  else
    let x := mouse_pos.1 - self.rect.left
    let y := mouse_pos.2 - self.rect.top
    let selected_old := self.selected
    let step : SelectionGroup × List (String × Nat) :=
      match firstHit (self.button_rects.zip self.item_rects) x y with
      | none => (self, [])
      | some i =>
        -- In the source `self.options[i]`; `i` is always in bounds
        -- because the zip is no longer than `item_rects`.
        let calls := if self.has_callback && i != selected_old then
            [(self.options.getD i "", selected_old)]
          else []
        ({ self with selected := i }, calls)
    if step.1.selected ≠ selected_old then
      ({ step.1 with
          markers := (step.1.markers.set selected_old false).set
            step.1.selected true }, step.2)
    else step

/-! ## Derived observations and concrete instances -/

/-- Whether a prepared render contains the frame primitive among its
blits. -/
def PreparedRender.hasFrame (p : PreparedRender) : Bool :=
  p.blits.any (fun b => match b with
    | Blit.frame _ _ => true
    | Blit.text _ _ => false)

/-- Fold a sequence of key presses through `Input.on_key_press`. -/
def Input.press_keys (st : Input) (key_name : Nat → String)
    (ks : List Nat) : Input :=
  ks.foldl (fun s k => s.on_key_press key_name k) st

/-- A key press that reaches the character-appending branch of
`Input.on_key_press` and passes its filters: not backspace, not enter,
resolving (via the ambient `key_name`) to a single displayable character
that the `allowed` filter (when configured) accepts. -/
def IsCharKey (allowed : Option (List String)) (key_name : Nat → String)
    (k : Nat) : Prop :=
  k ≠ K_BACKSPACE ∧ k ≠ K_RETURN ∧ (key_name k).length = 1 ∧
    (match allowed with
     | none => True
     | some syms => syms.contains (key_name k) = true)

instance (allowed : Option (List String)) (key_name : Nat → String)
    (k : Nat) : Decidable (IsCharKey allowed key_name k) := by
  unfold IsCharKey
  cases allowed <;> dsimp only <;> infer_instance

/-- A concrete model of `pygame.key.name`: digit and lower-case-letter
keys (pygame key codes are their ASCII codes) resolve to their
character, anything else to a non-character name. -/
def demoKeyName (k : Nat) : String :=
  if (48 ≤ k ∧ k ≤ 57) ∨ (97 ≤ k ∧ k ≤ 122) then
    (Char.ofNat k).toString
  else "unknown"

/-- The end-to-end `Input` of the spec's scenario: title "t", value
"10", editable, `max_value_length = 3`, digits allowed, no enter
callback, at the origin, rendered with `monoFont`. -/
def demoInput0 : Input :=
  Input.mk' monoFont 0 "t" "10" "  " none true none (some 3)
    (some ["0", "1", "2", "3", "4", "5", "6", "7", "8", "9"]) none (0, 0)

/-- `demoInput0` after a primary click at (2, 0), which lies inside its
value sub-rectangle: the widget is now in edit mode. -/
def demoInputEditing : Input := demoInput0.on_mouse_click 1 (2, 0)

/-- An editable `Input` with committed value "a", no length limit, no
symbol filter, no enter callback. -/
def demoInputA : Input :=
  Input.mk' monoFont 0 "t" "a" "  " none true none none none none (0, 0)

/-- `demoInputA` clicked into edit mode and extended with the key `b`
(code 98): pending value "ab" while the committed value is still "a". -/
def demoInputAB : Input :=
  (demoInputA.on_mouse_click 1 (2, 0)).on_key_press demoKeyName 98

/-- An editable `Input` whose value "abc" is already longer than its
`max_value_length` of 2 (the constructor does not enforce the limit). -/
def demoInputLong : Input :=
  Input.mk' monoFont 0 "t" "abc" "  " none true none (some 2) none none
    (0, 0)

/-- `demoInputLong` clicked into edit mode. -/
def demoInputLongEditing : Input := demoInputLong.on_mouse_click 1 (2, 0)

/-- An editing `Input` with an enter callback that accepts exactly the
values of length at most 2. -/
def demoInputCb : Input :=
  (Input.mk' monoFont 0 "t" "a" "  " none true none none none
      (some (fun s => s.length ≤ 2)) (0, 0)).on_mouse_click 1 (2, 0)

/-- `demoInputCb` extended with keys `b` then `c`: pending "abc", which
its callback rejects. -/
def demoInputCbLong : Input :=
  (demoInputCb.on_key_press demoKeyName 98).on_key_press demoKeyName 99

/-- A non-editable ("display only") `Input`. -/
def demoInputPassive : Input :=
  Input.mk' monoFont 0 "t" "10" "  " none false none none none none (0, 0)

/-- A 1x1 marker image. -/
def demoMarkU : Image := ⟨1, 1, "unsel"⟩
/-- A 1x1 marker image (same size as `demoMarkU`, different pixels). -/
def demoMarkS : Image := ⟨1, 1, "sel"⟩
/-- A 2x1 marker image (differs in size from `demoMarkU`). -/
def demoMarkWide : Image := ⟨2, 1, "wide"⟩

/-- A concrete `SelectionGroup` over "Easy"/"Medium"/"Hard", built by the
constructor (which succeeds: equal marker sizes, three options). -/
def demoGroup : SelectionGroup :=
  (SelectionGroup.mk' monoFont 0 demoMarkU demoMarkS "Title"
      ["Easy", "Medium", "Hard"] true (0, 0)).toOption.getD
    { unselected_image := demoMarkU, selected_image := demoMarkS
      options := [], n_options := 0, title_image := demoMarkU
      button_rects := [], item_rects := [], selected := 0
      has_callback := false, surface_w := 0, surface_h := 0
      markers := [], rect := ⟨0, 0, 0, 0⟩ }

/-- States an `Input` can be in: constructed by `Input.mk'` and then
mutated by any sequence of the widget's operations (`set_value`,
`on_mouse_click`, `on_key_press` with arbitrary ambient mouse position
and key-name function). -/
inductive Input.Reachable : Input → Prop where
  | init (font : Font) (font_color : Color) (title value delimiter : String)
      (frame_color : Option Color) (active_input : Bool)
      (width max_value_length : Option Nat)
      (allowed_symbols : Option (List String))
      (on_enter_callback : Option (String → Bool)) (position : Int × Int) :
      Input.Reachable (Input.mk' font font_color title value delimiter
        frame_color active_input width max_value_length allowed_symbols
        on_enter_callback position)
  | set_value (st : Input) (v : String) :
      Input.Reachable st → Input.Reachable (st.set_value v)
  | mouse_click (st : Input) (button : Nat) (mouse_pos : Int × Int) :
      Input.Reachable st → Input.Reachable (st.on_mouse_click button mouse_pos)
  | key_press (st : Input) (key_name : Nat → String) (key : Nat) :
      Input.Reachable st → Input.Reachable (st.on_key_press key_name key)

/-! ## Helper lemmas -/

@[simp] theorem Input.refresh_in_input (st : Input) :
    st.refresh.in_input = st.in_input := rfl
@[simp] theorem Input.refresh_current_value (st : Input) :
    st.refresh.current_value = st.current_value := rfl
@[simp] theorem Input.refresh_value (st : Input) :
    st.refresh.value = st.value := rfl
@[simp] theorem Input.refresh_active_input (st : Input) :
    st.refresh.active_input = st.active_input := rfl
@[simp] theorem Input.refresh_max_value_length (st : Input) :
    st.refresh.max_value_length = st.max_value_length := rfl
@[simp] theorem Input.refresh_allowed_symbols (st : Input) :
    st.refresh.allowed_symbols = st.allowed_symbols := rfl
@[simp] theorem Input.refresh_on_enter_callback (st : Input) :
    st.refresh.on_enter_callback = st.on_enter_callback := rfl
@[simp] theorem Input.refresh_prepared (st : Input) :
    st.refresh.prepared = st.prepare_render := rfl

/-! ## Claims -/

/-- C1 (corrected).  The claim says the frame primitive appears iff the
widget is in edit mode (`in_input`).  In the source
(`Input._prepare_render`, gui.py line 305) the guard is
`if self.active_input:` — the frame is drawn whenever the widget is
*configured* editable, whether or not it is currently being edited.
Amended: the rendered surface contains the frame primitive, drawn
around the value sub-rectangle before the text is blitted on top, if
and only if `active_input` is set. -/
theorem C1_frame_iff_active_input (st : Input) :
    st.prepare_render.hasFrame = st.active_input ∧
    (st.active_input = true →
      ∃ fimg timg, st.prepare_render.blits =
        [Blit.frame fimg st.prepare_render.value_rect,
         Blit.text timg st.prepare_render.text_rect]) ∧
    (st.active_input = false →
      ∃ timg, st.prepare_render.blits =
        [Blit.text timg st.prepare_render.text_rect]) := by
  cases h : st.active_input <;>
    simp [Input.prepare_render, PreparedRender.hasFrame, h]

/-- Witness for C1: at a concrete editable widget the frame is blitted
(first, around the value sub-rectangle), and at a concrete non-editable
one it is absent. -/
theorem C1_frame_iff_active_input_witness :
    (∃ fimg timg, demoInput0.prepare_render.blits =
        [Blit.frame fimg demoInput0.prepare_render.value_rect,
         Blit.text timg demoInput0.prepare_render.text_rect]) ∧
    (∃ timg, demoInputPassive.prepare_render.blits =
        [Blit.text timg demoInputPassive.prepare_render.text_rect]) :=
  ⟨(C1_frame_iff_active_input demoInput0).2.1 rfl,
   (C1_frame_iff_active_input demoInputPassive).2.2 rfl⟩

/-- Counterexample to C1 as stated: `demoInput0` is freshly constructed
(so after an operation and not in edit mode), yet its rendered surface
contains the frame — the claim's "when the widget is not editing the
frame is absent" fails. -/
theorem C1_counterexample :
    demoInput0.in_input = false ∧ demoInput0.render.hasFrame = true :=
  ⟨rfl, rfl⟩

/-- C7 (corrected).  `Label.set_text` (gui.py lines 38-40) re-renders
the cached surface but never touches `self.rect`: the bounding rect
keeps both the position *and the size* fixed at construction, so its
size does not follow the new render.  Amended: set_text re-renders the
cached surface in place (the new surface is exactly the font's render
of the new string, with the size the font assigns it), and the bounding
rect — position and size alike — is unchanged. -/
theorem C7_set_text_keeps_rect (l : Label) (text : String) :
    (l.set_text text).rect = l.rect ∧
    (l.set_text text).surface = l.font.render text l.font_color ∧
    (l.set_text text).surface.get_size = l.font.size text := by
  refine ⟨rfl, rfl, ?_⟩
  simp [Label.set_text, Font.render, Image.get_size]

/-- Counterexample to C7 as stated: re-rendering `demoLabel` (size
(2, 1)) with a 5-character string produces a surface of size (5, 1),
but the bounding rect still has width 2 — its size does not equal the
size of the newly rendered surface. -/
theorem C7_counterexample :
    (demoLabel.set_text "abcde").surface.get_size = (5, 1) ∧
    (demoLabel.set_text "abcde").rect = demoLabel.rect ∧
    demoLabel.rect = ⟨0, 0, 2, 1⟩ ∧
    (demoLabel.set_text "abcde").rect.width ≠
      ((demoLabel.set_text "abcde").surface.width : Int) :=
  ⟨rfl, rfl, rfl, by decide⟩

/-- C4 (corrected).  The early-return of `Input.set_value` (gui.py line
320) compares the new value with `self.current_value` — the *pending*
buffer — not with the committed `self.value`.  Amended: `set_value v`
is a complete no-op iff `v` equals the current pending value; when `v`
differs from the pending value it updates both `value` and
`current_value` to `v` and re-renders.  (When the widget is not
editing, pending equals committed, so the original claim holds in that
special case.) -/
theorem C4_set_value_compares_pending (st : Input) (v : String) :
    (v = st.current_value → st.set_value v = st) ∧
    (v ≠ st.current_value →
      (st.set_value v).current_value = v ∧ (st.set_value v).value = v ∧
      (st.set_value v).prepared =
        Input.prepare_render { st with current_value := v, value := v }) := by
  constructor
  · intro h
    simp [Input.set_value, h]
  · intro h
    simp [Input.set_value, h, Input.refresh]

/-- Witness for C4: setting `demoInputA`'s value to its pending value is
the identity; setting `demoInputAB`'s value to a different string
updates both fields. -/
theorem C4_set_value_compares_pending_witness :
    demoInputA.set_value "a" = demoInputA ∧
    (demoInputAB.set_value "xy").current_value = "xy" ∧
    (demoInputAB.set_value "xy").value = "xy" :=
  ⟨(C4_set_value_compares_pending demoInputA "a").1 rfl,
   ((C4_set_value_compares_pending demoInputAB "xy").2 (by decide)).1,
   ((C4_set_value_compares_pending demoInputAB "xy").2 (by decide)).2.1⟩

/-- Counterexample to C4 as stated: `demoInputAB` has committed value
"a" and pending value "ab".  `set_value "a"` passes a value equal to
the committed value, yet it is not a no-op: the pending value changes
from "ab" to "a" (and a re-render runs). -/
theorem C4_counterexample :
    demoInputAB.value = "a" ∧ demoInputAB.current_value = "ab" ∧
    (demoInputAB.set_value "a").current_value = "a" ∧
    (demoInputAB.set_value "a").current_value ≠ demoInputAB.current_value :=
  ⟨rfl, rfl, rfl, by decide⟩

/-- C2 (confirmed).  Pressing enter in edit mode
(`Input.on_key_press`, gui.py lines 348-357) always exits edit mode;
with no enter-callback the pending value is committed; with a callback
returning accept the pending value is committed (and the pending buffer
keeps it); with a callback returning reject the pending value is
reverted to the prior committed value and the committed value is
unchanged. -/
theorem C2_enter_commit_or_revert (st : Input) (kn : Nat → String)
    (h : st.in_input = true) :
    (st.on_key_press kn K_RETURN).in_input = false ∧
    (match st.on_enter_callback with
     | none =>
       (st.on_key_press kn K_RETURN).value = st.current_value ∧
       (st.on_key_press kn K_RETURN).current_value = st.current_value
     | some cb =>
       if cb st.current_value then
         (st.on_key_press kn K_RETURN).value = st.current_value ∧
         (st.on_key_press kn K_RETURN).current_value = st.current_value
       else
         (st.on_key_press kn K_RETURN).current_value = st.value ∧
         (st.on_key_press kn K_RETURN).value = st.value) := by
  rcases hc : st.on_enter_callback with _ | cb
  · constructor <;>
      simp [Input.on_key_press, Input.on_key_press_mut, h, hc, K_RETURN,
        K_BACKSPACE]
  · by_cases hv : cb st.current_value <;>
      constructor <;>
        simp [Input.on_key_press, Input.on_key_press_mut, h, hc, hv,
          K_RETURN, K_BACKSPACE]

/-- Witness for C2: enter on `demoInputEditing` (no callback) commits
"10" and exits edit mode; on `demoInputCb` (callback accepts "a")
commits; on `demoInputCbLong` (callback rejects "abc") reverts the
pending value to the committed "a" and leaves the committed value
unchanged. -/
theorem C2_enter_commit_or_revert_witness :
    (demoInputEditing.on_key_press demoKeyName K_RETURN).in_input = false ∧
    (demoInputEditing.on_key_press demoKeyName K_RETURN).value = "10" ∧
    (demoInputCb.on_key_press demoKeyName K_RETURN).value = "a" ∧
    (demoInputCbLong.on_key_press demoKeyName K_RETURN).current_value = "a" ∧
    (demoInputCbLong.on_key_press demoKeyName K_RETURN).value = "a" :=
  ⟨(C2_enter_commit_or_revert demoInputEditing demoKeyName rfl).1,
   (C2_enter_commit_or_revert demoInputEditing demoKeyName rfl).2.1,
   (C2_enter_commit_or_revert demoInputCb demoKeyName rfl).2.1,
   (C2_enter_commit_or_revert demoInputCbLong demoKeyName rfl).2.1,
   (C2_enter_commit_or_revert demoInputCbLong demoKeyName rfl).2.2⟩

/-- C9 (corrected).  The claim says state is only mutated after a
successful re-render.  In the source the field assignments precede the
`_prepare_render()` call in every mutating branch (gui.py lines
348-359, 368-370, and `set_value` lines 321-323), so if
`_prepare_render` raised, the widget would keep the *new* field values
with the stale previous surface — the prior state is not intact.
Amended: state is mutated before the re-render in every mutating path
— backspace, enter handling (edit flag and commit/revert field
writes), character append, and `set_value` — the full operation is
exactly the mutation phase followed by the re-render, and at the
moment the re-render starts (where a failure would leave the object)
the fields already hold their new values while the cached surface is
unchanged. -/
theorem C9_mutation_precedes_render (st : Input) (kn : Nat → String)
    (k : Nat) (v : String) (h : st.in_input = true) :
    (st.current_value ≠ "" →
      (st.on_key_press_mut kn K_BACKSPACE).1.current_value =
          st.current_value.dropRight 1 ∧
      (st.on_key_press_mut kn K_BACKSPACE).1.prepared = st.prepared ∧
      st.on_key_press kn K_BACKSPACE =
        (st.on_key_press_mut kn K_BACKSPACE).1.refresh) ∧
    ((st.on_key_press_mut kn K_RETURN).1.in_input = false ∧
      (st.on_key_press_mut kn K_RETURN).1.prepared = st.prepared ∧
      st.on_key_press kn K_RETURN =
        (st.on_key_press_mut kn K_RETURN).1.refresh ∧
      (match st.on_enter_callback with
       | none =>
         (st.on_key_press_mut kn K_RETURN).1.value = st.current_value
       | some cb =>
         if cb st.current_value then
           (st.on_key_press_mut kn K_RETURN).1.value = st.current_value
         else
           (st.on_key_press_mut kn K_RETURN).1.current_value
             = st.value)) ∧
    (IsCharKey st.allowed_symbols kn k →
      st.max_value_length ≠ some st.current_value.length →
      (st.on_key_press_mut kn k).1.current_value =
          st.current_value ++ kn k ∧
      (st.on_key_press_mut kn k).1.prepared = st.prepared ∧
      st.on_key_press kn k = (st.on_key_press_mut kn k).1.refresh) ∧
    (v ≠ st.current_value →
      (st.set_value_mut v).1.current_value = v ∧
      (st.set_value_mut v).1.value = v ∧
      (st.set_value_mut v).1.prepared = st.prepared ∧
      st.set_value v = (st.set_value_mut v).1.refresh) := by
  refine ⟨?_, ?_, ?_, ?_⟩
  · intro hne
    refine ⟨?_, ?_, ?_⟩ <;>
      simp [Input.on_key_press, Input.on_key_press_mut, h, hne, K_BACKSPACE]
  · rcases hc : st.on_enter_callback with _ | cb
    · refine ⟨?_, ?_, ?_, ?_⟩ <;>
        simp [Input.on_key_press, Input.on_key_press_mut, h, hc, K_RETURN,
          K_BACKSPACE]
    · by_cases hv : cb st.current_value <;>
        refine ⟨?_, ?_, ?_, ?_⟩ <;>
          simp [Input.on_key_press, Input.on_key_press_mut, h, hc, hv,
            K_RETURN, K_BACKSPACE]
  · intro hk hcap
    obtain ⟨hb, hr, hone, hall⟩ := hk
    rcases hm : st.max_value_length with _ | m
    · rcases hal : st.allowed_symbols with _ | syms
      · refine ⟨?_, ?_, ?_⟩ <;>
          simp [Input.on_key_press, Input.on_key_press_mut, h, hb, hr, hm,
            hal]
      · rw [hal] at hall
        simp only at hall
        have hmem : kn k ∈ syms := by simpa using hall
        refine ⟨?_, ?_, ?_⟩ <;>
          simp [Input.on_key_press, Input.on_key_press_mut, h, hb, hr, hm,
            hal, hmem]
    · have hlen : (st.current_value.length == m) = false := by
        rw [hm] at hcap
        simp only [ne_eq, Option.some.injEq] at hcap
        simp [Ne.symm hcap]
      rcases hal : st.allowed_symbols with _ | syms
      · refine ⟨?_, ?_, ?_⟩ <;>
          simp [Input.on_key_press, Input.on_key_press_mut, h, hb, hr, hm,
            hlen, hal]
      · rw [hal] at hall
        simp only at hall
        have hmem : kn k ∈ syms := by simpa using hall
        refine ⟨?_, ?_, ?_⟩ <;>
          simp [Input.on_key_press, Input.on_key_press_mut, h, hb, hr, hm,
            hlen, hal, hmem]
  · intro hv
    refine ⟨?_, ?_, ?_, ?_⟩ <;>
      simp [Input.set_value, Input.set_value_mut, hv]

/-- Witness for C9: at `demoInputAB` (pending "ab", committed "a", no
cap, no filter, no callback), the pre-render state of a backspace press
already has pending "a" with the stale surface; the pre-render state of
an enter press already has the edit flag cleared and the committed
value written ("ab"); the pre-render state of pressing `c` (code 99)
already has pending "abc" with the stale surface; the pre-render state
of `set_value "z"` already has both fields "z" with the stale
surface. -/
theorem C9_mutation_precedes_render_witness :
    (demoInputAB.on_key_press_mut demoKeyName K_BACKSPACE).1.current_value
        = "a" ∧
    (demoInputAB.on_key_press_mut demoKeyName
        K_BACKSPACE).1.prepared = demoInputAB.prepared ∧
    (demoInputAB.on_key_press_mut demoKeyName K_RETURN).1.in_input
        = false ∧
    (demoInputAB.on_key_press_mut demoKeyName K_RETURN).1.value = "ab" ∧
    (demoInputAB.on_key_press_mut demoKeyName 99).1.current_value
        = "abc" ∧
    (demoInputAB.on_key_press_mut demoKeyName 99).1.prepared
        = demoInputAB.prepared ∧
    (demoInputAB.set_value_mut "z").1.value = "z" ∧
    (demoInputAB.set_value_mut "z").1.prepared = demoInputAB.prepared :=
  ⟨((C9_mutation_precedes_render demoInputAB demoKeyName 99 "z" rfl).1
      (by decide)).1,
   ((C9_mutation_precedes_render demoInputAB demoKeyName 99 "z" rfl).1
      (by decide)).2.1,
   (C9_mutation_precedes_render demoInputAB demoKeyName 99 "z"
      rfl).2.1.1,
   (C9_mutation_precedes_render demoInputAB demoKeyName 99 "z"
      rfl).2.1.2.2.2,
   ((C9_mutation_precedes_render demoInputAB demoKeyName 99 "z"
      rfl).2.2.1 (by decide) (by decide)).1,
   ((C9_mutation_precedes_render demoInputAB demoKeyName 99 "z"
      rfl).2.2.1 (by decide) (by decide)).2.1,
   ((C9_mutation_precedes_render demoInputAB demoKeyName 99 "z"
      rfl).2.2.2 (by decide)).2.1,
   ((C9_mutation_precedes_render demoInputAB demoKeyName 99 "z"
      rfl).2.2.2 (by decide)).2.2.1⟩

/-- Counterexample to C9 as stated: at `demoInputEditing` (pending
"10"), at the point where the backspace branch enters
`_prepare_render` — the place a render failure would surface — the
pending value has already been truncated to "1" while the cached
surface is still the old one: a render failure would not leave the
prior state intact. -/
theorem C9_counterexample :
    demoInputEditing.current_value = "10" ∧
    (demoInputEditing.on_key_press_mut demoKeyName
        K_BACKSPACE).1.current_value = "1" ∧
    (demoInputEditing.on_key_press_mut demoKeyName
        K_BACKSPACE).1.prepared = demoInputEditing.prepared :=
  ⟨rfl, rfl, rfl⟩

/-- C10 (confirmed).  The length guard of the character branch
(gui.py line 363) is `len(current_value) == max_value_length`, an
equality test: when the pending value is already strictly longer than
the maximum, an allowed character key still appends, so over-long
pending values keep growing. -/
theorem C10_overlong_pending_grows (st : Input) (kn : Nat → String)
    (k m : Nat) (h : st.in_input = true)
    (hm : st.max_value_length = some m)
    (hlen : m < st.current_value.length)
    (hk : IsCharKey st.allowed_symbols kn k) :
    (st.on_key_press kn k).current_value = st.current_value ++ kn k ∧
    st.current_value.length <
      (st.on_key_press kn k).current_value.length := by
  obtain ⟨hb, hr, hone, hall⟩ := hk
  have hne : (st.current_value.length == m) = false := by
    simp [Nat.ne_of_gt hlen]
  rcases hal : st.allowed_symbols with _ | syms
  · constructor <;>
      simp [Input.on_key_press, Input.on_key_press_mut, h, hb, hr, hm, hne,
        hal, String.length_append, hone]
  · rw [hal] at hall
    simp only at hall
    have hmem : kn k ∈ syms := by simpa using hall
    constructor <;>
      simp [Input.on_key_press, Input.on_key_press_mut, h, hb, hr, hm, hne,
        hal, hall, hmem, String.length_append, hone]

/-- Witness for C10: `demoInputLongEditing` has pending "abc" of length
3 with `max_value_length = 2`; pressing the `d` key (code 100) still
appends, growing the pending value to "abcd". -/
theorem C10_overlong_pending_grows_witness :
    (demoInputLongEditing.on_key_press demoKeyName 100).current_value =
      demoInputLongEditing.current_value ++ demoKeyName 100 ∧
    demoInputLongEditing.current_value.length <
      (demoInputLongEditing.on_key_press demoKeyName
        100).current_value.length :=
  C10_overlong_pending_grows demoInputLongEditing demoKeyName 100 2 rfl rfl
    (by decide) (by decide)

/-- While editing, any key other than enter leaves the edit flag set:
backspace and the character branch never touch `in_input`. -/
theorem Input.key_press_keeps_in_input (st : Input) (kn : Nat → String)
    (k : Nat) (h0 : st.in_input = true) (hrt : k ≠ K_RETURN) :
    (st.on_key_press kn k).in_input = true := by
  by_cases hbk : k = K_BACKSPACE
  · by_cases hne : st.current_value ≠ "" <;>
      simp [Input.on_key_press, Input.on_key_press_mut, h0, hbk, hne]
  · rcases hm : st.max_value_length with _ | m
    · rcases hals : st.allowed_symbols with _ | syms
      · simp [Input.on_key_press, Input.on_key_press_mut, h0, hbk, hrt, hm,
          hals]
      · by_cases hmem : kn k ∈ syms <;>
          simp [Input.on_key_press, Input.on_key_press_mut, h0, hbk, hrt,
            hm, hals, hmem]
    · by_cases hcap : st.current_value.length = m
      · simp [Input.on_key_press, Input.on_key_press_mut, h0, hbk, hrt, hm,
          hcap]
      · rcases hals : st.allowed_symbols with _ | syms
        · simp [Input.on_key_press, Input.on_key_press_mut, h0, hbk, hrt,
            hm, hcap, hals]
        · by_cases hmem : kn k ∈ syms <;>
            simp [Input.on_key_press, Input.on_key_press_mut, h0, hbk, hrt,
              hm, hcap, hals, hmem]

/-- A key press outside edit mode is a complete no-op. -/
theorem Input.key_press_not_editing (st : Input) (kn : Nat → String)
    (k : Nat) (h0 : st.in_input = false) :
    st.on_key_press kn k = st := by
  simp [Input.on_key_press, Input.on_key_press_mut, h0]

/-- The character branch when the pending value's length equals the
configured maximum: the press is a complete no-op (the allowed-symbol
filter is not even consulted). -/
theorem Input.char_press_at_cap (st : Input) (kn : Nat → String) (k m : Nat)
    (h0 : st.in_input = true) (hb : k ≠ K_BACKSPACE) (hr : k ≠ K_RETURN)
    (hm : st.max_value_length = some m)
    (hlen : st.current_value.length = m) :
    st.on_key_press kn k = st := by
  simp [Input.on_key_press, Input.on_key_press_mut, h0, hb, hr, hm, hlen]

/-- The character branch off the cap: an allowed single-or-multi
character key name is appended to the pending value and the widget
re-renders. -/
theorem Input.char_press_appends (st : Input) (kn : Nat → String) (k m : Nat)
    (h0 : st.in_input = true) (hk : IsCharKey st.allowed_symbols kn k)
    (hm : st.max_value_length = some m)
    (hlen : st.current_value.length ≠ m) :
    st.on_key_press kn k =
      Input.refresh { st with current_value := st.current_value ++ kn k } := by
  obtain ⟨hb, hr, hone, hall⟩ := hk
  have hne : (st.current_value.length == m) = false := by simp [hlen]
  rcases hal : st.allowed_symbols with _ | syms
  · simp [Input.on_key_press, Input.on_key_press_mut, h0, hb, hr, hm, hne,
      hal]
  · rw [hal] at hall
    simp only at hall
    have hmem : kn k ∈ syms := by simpa using hall
    simp [Input.on_key_press, Input.on_key_press_mut, h0, hb, hr, hm, hne,
      hal, hmem]

/-- Folding a sequence of character key presses through
`Input.on_key_press`: starting at pending length at most the cap `m`,
the final pending length is `min (start + number of presses) m`, and
the edit flag, cap and symbol filter are untouched. -/
theorem Input.press_keys_spec (kn : Nat → String) (m : Nat)
    (al : Option (List String)) :
    ∀ (ks : List Nat) (st : Input), st.in_input = true →
      st.max_value_length = some m → st.allowed_symbols = al →
      (∀ k ∈ ks, IsCharKey al kn k) →
      st.current_value.length ≤ m →
      (st.press_keys kn ks).current_value.length =
          min (st.current_value.length + ks.length) m ∧
        (st.press_keys kn ks).in_input = true ∧
        (st.press_keys kn ks).max_value_length = some m ∧
        (st.press_keys kn ks).allowed_symbols = al := by
  intro ks
  induction ks with
  | nil =>
    intro st h0 hm hal _ hle
    simp only [Input.press_keys, List.foldl_nil, List.length_nil,
      Nat.add_zero]
    exact ⟨(Nat.min_eq_left hle).symm, h0, hm, hal⟩
  | cons k ks ih =>
    intro st h0 hm hal hks hle
    have hk : IsCharKey al kn k := hks k (List.mem_cons_self k ks)
    have hks' : ∀ k' ∈ ks, IsCharKey al kn k' :=
      fun k' h' => hks k' (List.mem_cons_of_mem _ h')
    have hfold : st.press_keys kn (k :: ks) =
        (st.on_key_press kn k).press_keys kn ks := by
      simp [Input.press_keys]
    by_cases hcap : st.current_value.length = m
    · have heq : st.on_key_press kn k = st :=
        Input.char_press_at_cap st kn k m h0 hk.1 hk.2.1 hm hcap
      rw [hfold, heq]
      obtain ⟨h1, h2, h3, h4⟩ := ih st h0 hm hal hks' hle
      refine ⟨?_, h2, h3, h4⟩
      rw [h1, hcap]
      omega
    · have heq := Input.char_press_appends st kn k m h0 (hal ▸ hk) hm hcap
      rw [hfold, heq]
      have hlen' : (Input.refresh
          { st with current_value := st.current_value ++ kn k
          }).current_value.length = st.current_value.length + 1 := by
        simp [String.length_append, hk.2.2.1]
      obtain ⟨h1, h2, h3, h4⟩ := ih
        (Input.refresh { st with current_value := st.current_value ++ kn k })
        (by simpa using h0) (by simpa using hm) (by simpa using hal) hks'
        (by rw [hlen']; omega)
      refine ⟨?_, h2, h3, h4⟩
      rw [h1, hlen']
      simp only [List.length_cons]
      omega

/-- C5 (confirmed).  For every reachable `Input` state — construction
followed by any sequence of `set_value`, `on_mouse_click`,
`on_key_press` — whenever the widget is not in edit mode the pending
value equals the committed value.  (Construction sets both to the same
string; leaving edit mode via a click outside the value rect resets
`current_value` to `value`; leaving it via enter either commits or
reverts; `set_value` writes both.) -/
theorem C5_not_editing_pending_eq_committed (st : Input)
    (hr : st.Reachable) (h : st.in_input = false) :
    st.current_value = st.value := by
  induction hr with
  | init font font_color title value delimiter frame_color active_input
      width max_value_length allowed_symbols on_enter_callback position =>
    rfl
  | set_value st v hp ih =>
    by_cases hv : v = st.current_value
    · have heq : st.set_value v = st := by simp [Input.set_value, hv]
      rw [heq] at h ⊢
      exact ih h
    · simp [Input.set_value, hv]
  | mouse_click st b mp hp ih =>
    by_cases ha : st.active_input = true
    · by_cases hb : b = LEFT_CLICK
      · by_cases hc : st.prepared.value_rect.collidepoint
            (mp.1 - st.rect.left) (mp.2 - st.rect.top) = true
        · have heq : st.on_mouse_click b mp
              = Input.refresh { st with in_input := true } := by
            simp [Input.on_mouse_click, ha, hb, hc]
          rw [heq] at h
          simp at h
        · have heq : st.on_mouse_click b mp = Input.refresh
              { st with in_input := false, current_value := st.value } := by
            simp [Input.on_mouse_click, ha, hb, hc]
          rw [heq]
          simp
      · have heq : st.on_mouse_click b mp = st := by
          simp [Input.on_mouse_click, hb]
        rw [heq] at h ⊢
        exact ih h
    · have ha' : st.active_input = false := by simpa using ha
      have heq : st.on_mouse_click b mp = st := by
        simp [Input.on_mouse_click, ha']
      rw [heq] at h ⊢
      exact ih h
  | key_press st kn k hp ih =>
    by_cases h0 : st.in_input = true
    · by_cases hrt : k = K_RETURN
      · subst hrt
        rcases hc : st.on_enter_callback with _ | cb
        · simp [Input.on_key_press, Input.on_key_press_mut, h0, hc,
            K_RETURN, K_BACKSPACE]
        · by_cases hv : cb st.current_value <;>
            simp [Input.on_key_press, Input.on_key_press_mut, h0, hc, hv,
              K_RETURN, K_BACKSPACE]
      · exact absurd ((Input.key_press_keeps_in_input st kn k h0 hrt).symm.trans h)
          (by decide)
    · have h0' : st.in_input = false := by simpa using h0
      rw [Input.key_press_not_editing st kn k h0'] at h ⊢
      exact ih h

/-- Witness for C5: the concrete chain construct → click into edit mode
→ press enter is reachable and not editing, and its pending value
equals its committed value. -/
theorem C5_not_editing_pending_eq_committed_witness :
    ((demoInput0.on_mouse_click 1 (2, 0)).on_key_press demoKeyName
        K_RETURN).current_value =
      ((demoInput0.on_mouse_click 1 (2, 0)).on_key_press demoKeyName
        K_RETURN).value :=
  C5_not_editing_pending_eq_committed _
    (Input.Reachable.key_press _ demoKeyName K_RETURN
      (Input.Reachable.mouse_click _ 1 (2, 0)
        (Input.Reachable.init monoFont 0 "t" "10" "  " none true none
          (some 3) (some ["0", "1", "2", "3", "4", "5", "6", "7", "8", "9"])
          none (0, 0))))
    rfl

/-- C8 (confirmed).  With a configured maximum and a pending value
shorter than it, a sequence of allowed character key presses (each
key resolving to a single character) long enough to reach the cap
grows the pending value to exactly `max_value_length` characters; one
further character key press is a complete no-op; and the cap never
applies to backspace (which still deletes) or enter (which still exits
edit mode). -/
theorem C8_pending_capped_at_max (st : Input) (kn : Nat → String)
    (ks : List Nat) (kx m : Nat)
    (h0 : st.in_input = true) (hm : st.max_value_length = some m)
    (hlt : st.current_value.length < m)
    (hks : ∀ k ∈ ks, IsCharKey st.allowed_symbols kn k)
    (hkx : IsCharKey st.allowed_symbols kn kx)
    (hfill : m ≤ st.current_value.length + ks.length) :
    (st.press_keys kn ks).current_value.length = m ∧
    (st.press_keys kn ks).on_key_press kn kx = st.press_keys kn ks ∧
    ((st.press_keys kn ks).on_key_press kn K_BACKSPACE).current_value =
      (st.press_keys kn ks).current_value.dropRight 1 ∧
    ((st.press_keys kn ks).on_key_press kn K_RETURN).in_input = false := by
  obtain ⟨h1, h2, h3, h4⟩ := Input.press_keys_spec kn m st.allowed_symbols
    ks st h0 hm rfl hks (Nat.le_of_lt hlt)
  have hlenm : (st.press_keys kn ks).current_value.length = m := by
    rw [h1]; omega
  refine ⟨hlenm, ?_, ?_, ?_⟩
  · exact Input.char_press_at_cap _ kn kx m h2 hkx.1 hkx.2.1 h3 hlenm
  · have hne : (st.press_keys kn ks).current_value ≠ "" := by
      intro hemp
      rw [hemp] at hlenm
      simp at hlenm
      omega
    simp [Input.on_key_press, Input.on_key_press_mut, h2, hne, K_BACKSPACE]
  · rcases hc : (st.press_keys kn ks).on_enter_callback with _ | cb
    · simp [Input.on_key_press, Input.on_key_press_mut, h2, hc, K_RETURN,
        K_BACKSPACE]
    · by_cases hv : cb (st.press_keys kn ks).current_value <;>
        simp [Input.on_key_press, Input.on_key_press_mut, h2, hc, hv,
          K_RETURN, K_BACKSPACE]

/-- Witness for C8: the spec's end-to-end scenario.  `demoInputEditing`
has pending "10" and cap 3; pressing "5" fills the pending value to
length 3 ("105"); one further "9" is a no-op; backspace and enter at
the cap still work. -/
theorem C8_pending_capped_at_max_witness :
    (demoInputEditing.press_keys demoKeyName [53]).current_value.length
        = 3 ∧
    (demoInputEditing.press_keys demoKeyName [53]).on_key_press
        demoKeyName 57 = demoInputEditing.press_keys demoKeyName [53] ∧
    ((demoInputEditing.press_keys demoKeyName [53]).on_key_press
        demoKeyName K_BACKSPACE).current_value =
      (demoInputEditing.press_keys demoKeyName
        [53]).current_value.dropRight 1 ∧
    ((demoInputEditing.press_keys demoKeyName [53]).on_key_press
        demoKeyName K_RETURN).in_input = false :=
  C8_pending_capped_at_max demoInputEditing demoKeyName [53] 57 3 rfl rfl
    (by decide) (by decide) (by decide) (by decide)

/-- `firstHit` returns the index of a hit row when that row contains the
point and every earlier row misses it. -/
theorem firstHit_eq_some (x y : Int) :
    ∀ (pairs : List (Rect × Rect)) (i : Nat),
      i < pairs.length →
      (pairs.getD i (⟨0, 0, 0, 0⟩, ⟨0, 0, 0, 0⟩)).2.collidepoint x y
        = true →
      (∀ k, k < i →
        (pairs.getD k (⟨0, 0, 0, 0⟩, ⟨0, 0, 0, 0⟩)).2.collidepoint x y
          = false) →
      firstHit pairs x y = some i := by
  intro pairs
  induction pairs with
  | nil =>
    intro i hi _ _
    simp at hi
  | cons p rest ih =>
    intro i hi hhit hmin
    cases i with
    | zero =>
      rw [List.getD_cons_zero] at hhit
      simp [firstHit, hhit]
    | succ j =>
      have h0 : p.2.collidepoint x y = false := by
        have := hmin 0 (Nat.succ_pos j)
        rwa [List.getD_cons_zero] at this
      have hj := ih j (by simpa using hi)
        (by rwa [List.getD_cons_succ] at hhit)
        (fun k hk => by
          have := hmin (k + 1) (by omega)
          rwa [List.getD_cons_succ] at this)
      simp [firstHit, h0, hj]

/-- `firstHit` returns nothing when every row misses the point. -/
theorem firstHit_eq_none (x y : Int) :
    ∀ (pairs : List (Rect × Rect)),
      (∀ k, k < pairs.length →
        (pairs.getD k (⟨0, 0, 0, 0⟩, ⟨0, 0, 0, 0⟩)).2.collidepoint x y
          = false) →
      firstHit pairs x y = none := by
  intro pairs
  induction pairs with
  | nil =>
    intro _
    rfl
  | cons p rest ih =>
    intro hall
    have h0 : p.2.collidepoint x y = false := by
      have := hall 0 (by simp)
      rwa [List.getD_cons_zero] at this
    have hrest := ih (fun k hk => by
      have := hall (k + 1) (by simpa using Nat.succ_lt_succ hk)
      rwa [List.getD_cons_succ] at this)
    simp [firstHit, h0, hrest]

/-- Reading the item-rect component of the zipped scan list. -/
theorem zip_getD_snd (bs its : List Rect) (k : Nat)
    (hk : k < (bs.zip its).length) :
    ((bs.zip its).getD k (⟨0, 0, 0, 0⟩, ⟨0, 0, 0, 0⟩)).2 =
      its.getD k ⟨0, 0, 0, 0⟩ := by
  have hk2 : k < its.length := by
    rw [List.length_zip] at hk
    omega
  rw [List.getD_eq_getElem _ _ hk, List.getD_eq_getElem _ _ hk2]
  simp [List.getElem_zip]

/-- C3 (confirmed).  For a `SelectionGroup` (rect lists aligned with the
options, callback registered), a primary-button mouse-down whose local
point lies inside option row `i` — with every earlier row missing it,
matching the scan in construction order where the first containing row
wins — behaves as claimed: if `i` differs from the current selection
the callback log contains exactly one entry, carrying `options[i]` and
the *old* selection (the source calls the callback before assigning
`self._selected = i`), the selection becomes `i`, and the two marker
cells are re-blitted; if `i` is the current selection the state is
untouched and the log empty; a click outside every row leaves state and
log untouched. -/
theorem C3_click_selects_and_notifies (st : SelectionGroup)
    (mouse_pos : Int × Int) (i : Nat)
    (hlen₁ : st.button_rects.length = st.options.length)
    (hlen₂ : st.item_rects.length = st.options.length)
    (hcb : st.has_callback = true) :
    (i < st.item_rects.length →
      (st.item_rects.getD i ⟨0, 0, 0, 0⟩).collidepoint
          (mouse_pos.1 - st.rect.left) (mouse_pos.2 - st.rect.top) = true →
      (∀ k, k < i → (st.item_rects.getD k ⟨0, 0, 0, 0⟩).collidepoint
          (mouse_pos.1 - st.rect.left) (mouse_pos.2 - st.rect.top) = false) →
      ((i ≠ st.selected →
        st.on_mouse_down LEFT_CLICK mouse_pos =
          ({ st with selected := i, markers := (st.markers.set st.selected false).set i true },
           [(st.options.getD i "", st.selected)])) ∧
       (i = st.selected →
        st.on_mouse_down LEFT_CLICK mouse_pos = (st, [])))) ∧
    ((∀ k, k < st.item_rects.length →
        (st.item_rects.getD k ⟨0, 0, 0, 0⟩).collidepoint
          (mouse_pos.1 - st.rect.left) (mouse_pos.2 - st.rect.top) = false) →
      st.on_mouse_down LEFT_CLICK mouse_pos = (st, [])) := by
  have hzlen : (st.button_rects.zip st.item_rects).length =
      st.item_rects.length := by
    rw [List.length_zip, hlen₁, hlen₂]
    omega
  constructor
  · intro hi hhit hmin
    have hfh : firstHit (st.button_rects.zip st.item_rects)
        (mouse_pos.1 - st.rect.left) (mouse_pos.2 - st.rect.top) = some i := by
      apply firstHit_eq_some
      · omega
      · rw [zip_getD_snd _ _ _ (by omega)]
        exact hhit
      · intro k hk
        rw [zip_getD_snd _ _ _ (by omega)]
        exact hmin k hk
    constructor
    · intro hne
      have hbne : (i != st.selected) = true := by
        simp [hne]
      simp [SelectionGroup.on_mouse_down, hfh, hcb, hbne, hne]
    · intro heq
      subst heq
      simp [SelectionGroup.on_mouse_down, hfh]
  · intro hall
    have hfh : firstHit (st.button_rects.zip st.item_rects)
        (mouse_pos.1 - st.rect.left) (mouse_pos.2 - st.rect.top) = none := by
      apply firstHit_eq_none
      intro k hk
      rw [zip_getD_snd _ _ _ hk]
      exact hall k (by omega)
    simp [SelectionGroup.on_mouse_down, hfh]

/-- Witness for C3 on `demoGroup` (rows at local y = 1, 3, 4; selection
at row 0): clicking row 1 logs one call `("Medium", 0)` and selects
row 1; clicking the already-selected row 0 changes nothing and logs
nothing; clicking the gap above the rows changes nothing. -/
theorem C3_click_selects_and_notifies_witness :
    demoGroup.on_mouse_down LEFT_CLICK (0, 3) =
      ({ demoGroup with selected := 1, markers := (demoGroup.markers.set demoGroup.selected false).set 1 true },
       [(demoGroup.options.getD 1 "", demoGroup.selected)]) ∧
    demoGroup.on_mouse_down LEFT_CLICK (0, 1) = (demoGroup, []) ∧
    demoGroup.on_mouse_down LEFT_CLICK (0, 0) = (demoGroup, []) :=
  ⟨((C3_click_selects_and_notifies demoGroup (0, 3) 1 rfl rfl rfl).1
      (by decide) (by decide) (by decide)).1 (by decide),
   ((C3_click_selects_and_notifies demoGroup (0, 1) 0 rfl rfl rfl).1
      (by decide) (by decide) (by decide)).2 rfl,
   (C3_click_selects_and_notifies demoGroup (0, 0) 0 rfl rfl rfl).2
      (by decide)⟩

/-- C6 (corrected).  `SelectionGroup.__init__` raises the
invalid-configuration `ValueError` exactly when the marker images
differ in pixel size.  But "for every pair of equal-size marker images,
construction succeeds" fails: with an *empty* options list,
`max(item_widths)` raises `ValueError: max() arg is an empty sequence`
even for equal-size images.  Amended: construction fails with the
invalid-configuration error iff the marker sizes differ; for every pair
of equal-size marker images and every *non-empty* options list it
succeeds with `selected_index = 0`, row 0 showing the selected marker
and all other rows the unselected one; with equal-size images and an
empty options list it fails with the empty-`max()` error. -/
theorem C6_constructor_validation (font : Font) (font_color : Color)
    (u s : Image) (title : String) (options : List String)
    (hc : Bool) (pos : Int × Int) :
    (u.get_size ≠ s.get_size →
      SelectionGroup.mk' font font_color u s title options hc pos =
        Except.error
          "Images of selected and unselected buttons must have equal size") ∧
    (u.get_size = s.get_size → options ≠ [] →
      (SelectionGroup.mk' font font_color u s title options hc
          pos).toOption.map SelectionGroup.selected = some 0 ∧
      (SelectionGroup.mk' font font_color u s title options hc
          pos).toOption.map SelectionGroup.markers =
        some (true :: List.replicate (options.length - 1) false) ∧
      (SelectionGroup.mk' font font_color u s title options hc
          pos).isOk = true) ∧
    (u.get_size = s.get_size → options = [] →
      SelectionGroup.mk' font font_color u s title options hc pos =
        Except.error "max() arg is an empty sequence") := by
  refine ⟨?_, ?_, ?_⟩
  · intro h
    simp [SelectionGroup.mk', h]
  · intro he hne
    rcases options with _ | ⟨o, os⟩
    · exact absurd rfl hne
    · unfold SelectionGroup.mk'
      rw [if_neg (fun hcon => hcon he)]
      exact ⟨rfl, rfl, rfl⟩
  · intro he hemp
    subst hemp
    unfold SelectionGroup.mk'
    rw [if_neg (fun hcon => hcon he)]
    rfl

/-- Witness for C6: differing marker sizes give the
invalid-configuration error; equal sizes with three options give a
group with `selected = 0` and markers selected-unselected-unselected. -/
theorem C6_constructor_validation_witness :
    SelectionGroup.mk' monoFont 0 demoMarkU demoMarkWide "T" ["a"] true
        (0, 0) =
      Except.error
        "Images of selected and unselected buttons must have equal size" ∧
    (SelectionGroup.mk' monoFont 0 demoMarkU demoMarkS "Title"
        ["Easy", "Medium", "Hard"] true (0, 0)).toOption.map
      SelectionGroup.selected = some 0 ∧
    (SelectionGroup.mk' monoFont 0 demoMarkU demoMarkS "Title"
        ["Easy", "Medium", "Hard"] true (0, 0)).toOption.map
      SelectionGroup.markers = some [true, false, false] :=
  ⟨(C6_constructor_validation monoFont 0 demoMarkU demoMarkWide "T" ["a"]
      true (0, 0)).1 (by decide),
   ((C6_constructor_validation monoFont 0 demoMarkU demoMarkS "Title"
      ["Easy", "Medium", "Hard"] true (0, 0)).2.1 rfl (by decide)).1,
   ((C6_constructor_validation monoFont 0 demoMarkU demoMarkS "Title"
      ["Easy", "Medium", "Hard"] true (0, 0)).2.1 rfl (by decide)).2.1⟩

/-- Counterexample to C6 as stated: the two 1x1 marker images have equal
size, yet construction with an empty options list fails
(`max(item_widths)` raises on an empty sequence), so "for every pair of
equal-size marker images, construction succeeds" is false. -/
theorem C6_counterexample :
    demoMarkU.get_size = demoMarkS.get_size ∧
    SelectionGroup.mk' monoFont 0 demoMarkU demoMarkS "Title" [] true
        (0, 0) =
      Except.error "max() arg is an empty sequence" :=
  ⟨rfl, rfl⟩
